import Mathlib

/-!
Shallow embedding of the `claude-api` repository (three JavaScript source
files: `api/index.js`, `api/claude.js`, and a second router variant) and
proofs about the behaviours its specification describes.

JavaScript strings are modelled as lists of UTF-16 code units (`JStr`),
because ECMAScript strings are sequences of 16-bit units and
`encodeURIComponent` throws a `URIError` exactly when it meets an unpaired
surrogate.  JSON values are modelled by `JSVal`, with explicit `undefined` and
`null` so that JavaScript truthiness (`||`, `if (x)`) is captured exactly.
The behaviour of the upstream HTTP services is a parameter: a `World` maps
each URL to the outcome of the single `fetch` the code performs against it
during one request.  Every handler returns, besides its HTTP response, the
trace of upstream calls it actually made, so that "no upstream is
contacted" claims are statable.
-/

set_option autoImplicit false

/-- A JavaScript string: its sequence of UTF-16 code units (each `< 2^16`).
Unpaired surrogates are representable, as they are in JavaScript. -/
abbrev JStr := List Nat

/-- UTF-16 code units of one Unicode scalar value (Lean `Char`):
one unit below `0x10000`, otherwise a surrogate pair. -/
def utf16Char (c : Char) : List Nat :=
  let n := c.toNat
  if n < 0x10000 then [n]
  else [0xD800 + (n - 0x10000) / 0x400, 0xDC00 + (n - 0x10000) % 0x400]

/-- Encode a Lean string literal as a JavaScript string (UTF-16 units). -/
def S (s : String) : JStr := s.data.flatMap utf16Char

/-- A JavaScript/JSON value, with `undefined` (the result of reading an absent
property) kept distinct from `null`. -/
inductive JSVal where
  | undefined
  | null
  | bool (b : Bool)
  | num (n : Int)
  | str (s : JStr)
  | arr (elems : List JSVal)
  | obj (fields : List (String × JSVal))
  deriving Repr

/-- String value shorthand: `JS "x"` is the JavaScript string `"x"`. -/
def JS (s : String) : JSVal := .str (S s)

/-- JavaScript truthiness: `undefined`, `null`, `false`, `0` and `""` are
falsy; every object and array is truthy. -/
def truthy : JSVal → Bool
  | .undefined => false
  | .null => false
  | .bool b => b
  | .num n => n != 0
  | .str s => !s.isEmpty
  | .arr _ => true
  | .obj _ => true

/-- Property read `v.k` (with optional chaining's behaviour on non-objects:
the result is `undefined`, never an exception, matching how the source only
dereferences possibly-missing values through `?.`). -/
def jsGet : JSVal → String → JSVal
  | .obj fields, k =>
    match fields.find? (fun p => p.1 == k) with
    | some p => p.2
    | none => .undefined
  | _, _ => .undefined

/-- Index read `v[i]` on a possibly-non-array value. -/
def jsIdx : JSVal → Nat → JSVal
  | .arr elems, i => elems.getD i .undefined
  | _, _ => .undefined

/-- JavaScript `a || b`: `a` when `a` is truthy, else `b`. -/
def jsOr (a b : JSVal) : JSVal := if truthy a then a else b

/-- JavaScript `arr.slice(-5)`: the last five elements (all of them when the
array is shorter). -/
def lastFive (l : List JSVal) : List JSVal := l.drop (l.length - 5)

/-- Outcome of one `fetch` against one URL during the request:
the promise rejects (`netError`, carrying `error.message`), or an HTTP
response arrives with `ok = (status in 200..299)` and a body whose JSON
parse either fails (`Except.error`, carrying the parse error's message) or
yields a value. -/
inductive FetchOutcome where
  | netError (msg : String)
  | resp (ok : Bool) (body : Except String JSVal)
  deriving Repr

/-- The upstream world: what each URL answers to the single POST the code
sends it during one request. -/
def World := String → FetchOutcome

/-- One upstream call the handler actually performed: the URL fetched and
the JSON payload sent. -/
structure Call where
  url : String
  payload : JSVal
  deriving Repr

/-- An HTTP response produced by a handler: status code and JSON body
(`JSVal.undefined` body for the bodyless `res.status(200).end()`). -/
structure HttpResponse where
  status : Nat
  body : JSVal
  deriving Repr

/-- The code pattern `try { r = await fetch(url); if (r.ok) { const data =
await r.json(); return f(data); } } catch (e) {}` followed by a
fallthrough: `f data` on a 2xx response with a parsed body, the
fallthrough `d` on a network error, a non-2xx status, or a parse throw. -/
def onOk2xx {α : Type} (o : FetchOutcome) (f : JSVal → α) (d : α) : α :=
  match o with
  | .resp true (.ok data) => f data
  | _ => d

/-- The code pattern that parses the body without checking `response.ok`:
`f data` whenever `fetch` and `response.json()` both succeed (2xx or not),
`e msg` when either of them throws. -/
def onParsed {α : Type} (o : FetchOutcome) (f : JSVal → α) (e : String → α) : α :=
  match o with
  | .netError m => e m
  | .resp _ (.error m) => e m
  | .resp _ (.ok data) => f data

/-- The attempt outcomes `api/index.js` treats as "try the next endpoint":
a network error, a non-2xx status, or a JSON parse failure.  (A 2xx parsed
body is not in this set, whatever fields it has.) -/
def attemptFailed : FetchOutcome → Bool
  | .netError _ => true
  | .resp false _ => true
  | .resp true (.error _) => true
  | .resp true (.ok _) => false

/-! ## `api/index.js`: upstream registry -/

def chatgptUrl0 : String := "https://api.kastg.xyz/api/ai/chatgptv2"
def chatgptUrl1 : String := "https://deepenglish.com/wp-json/ai-chatbot/v1/chat"
def claudeUrl : String := "https://api.kastg.xyz/api/ai/claude"
def perplexityUrl : String := "https://api.kastg.xyz/api/ai/perplexity"
def geminiUrlBase : String :=
  "https://generativelanguage.googleapis.com/v1beta/models/gemini-pro:generateContent"
def imageUrl0 : String := "https://image.pollinations.ai/prompt/"
def imageUrl1 : String := "https://api.kastg.xyz/api/ai/stablediffusion"

/-! ## `api/index.js`: chat strategies -/

/-- The generic chat extraction `data.response || data.message || data.result`. -/
def normalizeChat (data : JSVal) : JSVal :=
  jsOr (jsGet data "response") (jsOr (jsGet data "message") (jsGet data "result"))

/-- The payload of `tryChatGPT`'s first POST:
`{prompt, history: history.slice(-5)}`. -/
def chatgptCall0 (prompt : JSVal) (history : List JSVal) : Call :=
  ⟨chatgptUrl0, .obj [("prompt", prompt), ("history", .arr (lastFive history))]⟩

/-- The payload of `tryChatGPT`'s second POST: the reformatted full
history plus the user prompt as a `{messages}` list. -/
def chatgptCall1 (prompt : JSVal) (history : List JSVal) : Call :=
  ⟨chatgptUrl1, .obj [("messages", .arr
    (history.map (fun h => .obj [("role", jsGet h "role"), ("content", jsGet h "content")])
      ++ [.obj [("role", JS "user"), ("content", prompt)]]))]⟩

/-- `tryChatGPT(prompt, history)` from `api/index.js`.  On a 2xx parsed
body from the kastg endpoint it returns
`data.response || data.message || data.result` directly (even when that is
`undefined`).  On a network error, non-2xx status or JSON parse failure it
falls through to the deepenglish endpoint, whose 2xx parsed body yields
`data.response || data.message`; otherwise the function returns `null`. -/
def tryChatGPT (w : World) (prompt : JSVal) (history : List JSVal) :
    List Call × JSVal :=
  onOk2xx (w chatgptUrl0)
    (fun data => ([chatgptCall0 prompt history], normalizeChat data))
    (onOk2xx (w chatgptUrl1)
      (fun data => ([chatgptCall0 prompt history, chatgptCall1 prompt history],
        jsOr (jsGet data "response") (jsGet data "message")))
      ([chatgptCall0 prompt history, chatgptCall1 prompt history], .null))

/-- `tryClaude(prompt, history)` from `api/index.js`. -/
def tryClaude (w : World) (prompt : JSVal) (history : List JSVal) :
    List Call × JSVal :=
  let call : Call := ⟨claudeUrl, .obj [("prompt", prompt), ("history", .arr (lastFive history))]⟩
  onOk2xx (w claudeUrl) (fun data => ([call], normalizeChat data)) ([call], .null)

/-- `tryPerplexity(prompt)` from `api/index.js`. -/
def tryPerplexity (w : World) (prompt : JSVal) : List Call × JSVal :=
  let call : Call := ⟨perplexityUrl, .obj [("prompt", prompt)]⟩
  onOk2xx (w perplexityUrl) (fun data => ([call], normalizeChat data)) ([call], .null)

/-- The sentinel placeholder the source compares the key against. -/
def geminiPlaceholder : String := "YOUR_GEMINI_KEY"

/-- `const GEMINI_KEY = process.env.GEMINI_API_KEY || 'YOUR_GEMINI_KEY'`:
an absent or empty environment value becomes the placeholder. -/
def resolveGeminiKey (envKey : Option String) : String :=
  match envKey with
  | none => geminiPlaceholder
  | some k => if k = "" then geminiPlaceholder else k

/-- The single call `tryGemini` can make: the Google endpoint with the key
in the query string and the `{contents:[{parts:[{text}]}]}` payload. -/
def geminiCall (envKey : Option String) (prompt : JSVal) : Call :=
  ⟨geminiUrlBase ++ "?key=" ++ resolveGeminiKey envKey,
   .obj [("contents", .arr [.obj [("parts", .arr [.obj [("text", prompt)]])]])]⟩

/-- `tryGemini(prompt, history, imageUrl)` from `api/index.js`.  With a
missing/placeholder key it immediately delegates to `tryChatGPT`.
Otherwise it POSTs the `{contents:[{parts:[{text}]}]}` payload to the
Google endpoint (key in the query string); a 2xx parsed body returns
`data.candidates?.[0]?.content?.parts?.[0]?.text` directly (even when
`undefined`), and any failure falls back to `tryChatGPT`. -/
def tryGemini (w : World) (envKey : Option String) (prompt : JSVal)
    (history : List JSVal) (_imageUrl : JSVal) : List Call × JSVal :=
  if resolveGeminiKey envKey = geminiPlaceholder then
    tryChatGPT w prompt history
  else
    onOk2xx (w (geminiUrlBase ++ "?key=" ++ resolveGeminiKey envKey))
      (fun data => ([geminiCall envKey prompt],
        jsGet (jsIdx (jsGet (jsGet (jsIdx (jsGet data "candidates") 0) "content") "parts") 0) "text"))
      ((geminiCall envKey prompt :: (tryChatGPT w prompt history).1),
        (tryChatGPT w prompt history).2)

/-- `model.toLowerCase()` (the model names involved are ASCII). -/
def jsToLower (s : String) : String := ⟨s.data.map Char.toLower⟩

/-- The `switch (modelLower)` of `handleChatRequest`: which strategy a
lowercased model name selects (ChatGPT is the default). -/
def chatStrategy (w : World) (envKey : Option String) (prompt : JSVal)
    (modelLower : String) (history : List JSVal) (imageUrl : JSVal) :
    List Call × JSVal :=
  match modelLower with
  | "chatgpt" | "gpt" | "gpt4" => tryChatGPT w prompt history
  | "claude" => tryClaude w prompt history
  | "perplexity" | "search" => tryPerplexity w prompt
  | "gemini" => tryGemini w envKey prompt history imageUrl
  | _ => tryChatGPT w prompt history

/-- The response `handleChatRequest` formats from the strategy result:
a truthy result becomes the 200 success envelope; a falsy one reaches
`throw new Error('All APIs failed')`, caught to the 500 body
`{error:'Chat generation failed', message, model}`. -/
def chatEnvelope (modelLower : String) (r : JSVal) (now : String) : HttpResponse :=
  if truthy r then
    ⟨200, .obj [("success", .bool true), ("model", JS modelLower),
                ("response", r), ("timestamp", JS now)]⟩
  else
    ⟨500, .obj [("error", JS "Chat generation failed"),
                ("message", JS "All APIs failed"), ("model", JS modelLower)]⟩

/-- `handleChatRequest(prompt, model, history, imageUrl, res)` from
`api/index.js`: dispatch on the lowercased model name, then format. -/
def handleChatRequest (w : World) (envKey : Option String) (prompt : JSVal)
    (model : String) (history : List JSVal) (imageUrl : JSVal) (now : String) :
    List Call × HttpResponse :=
  let s := chatStrategy w envKey prompt (jsToLower model) history imageUrl
  (s.1, chatEnvelope (jsToLower model) s.2 now)

/-! ## `encodeURIComponent` (ECMAScript `Encode` abstract operation) -/

/-- The code units `encodeURIComponent` leaves unescaped:
ASCII letters, digits, and `- _ . ! ~ * ( )` and the apostrophe. -/
def uriUnescaped (c : Nat) : Bool :=
  (0x41 ≤ c && c ≤ 0x5A) || (0x61 ≤ c && c ≤ 0x7A) || (0x30 ≤ c && c ≤ 0x39) ||
  c = 0x2D || c = 0x5F || c = 0x2E || c = 0x21 || c = 0x7E || c = 0x2A ||
  c = 0x27 || c = 0x28 || c = 0x29

/-- Code unit of the uppercase hex digit for `n < 16`. -/
def hexDigit (n : Nat) : Nat := if n < 10 then 0x30 + n else 0x41 + (n - 10)

/-- UTF-8 bytes of one Unicode code point (`cp ≤ 0x10FFFF`). -/
def utf8Bytes (cp : Nat) : List Nat :=
  if cp < 0x80 then [cp]
  else if cp < 0x800 then [0xC0 + cp / 0x40, 0x80 + cp % 0x40]
  else if cp < 0x10000 then
    [0xE0 + cp / 0x1000, 0x80 + cp / 0x40 % 0x40, 0x80 + cp % 0x40]
  else
    [0xF0 + cp / 0x40000, 0x80 + cp / 0x1000 % 0x40, 0x80 + cp / 0x40 % 0x40,
     0x80 + cp % 0x40]

/-- Percent-escape of one byte: `%XY` as code units (`%` is `0x25`). -/
def pctByte (b : Nat) : List Nat := [0x25, hexDigit (b / 16), hexDigit (b % 16)]

/-- Percent-escapes of the UTF-8 encoding of one code point. -/
def pctCodePoint (cp : Nat) : List Nat := (utf8Bytes cp).flatMap pctByte

/-- A leading (high) surrogate code unit. -/
def isLeadSurrogate (c : Nat) : Bool := 0xD800 ≤ c && c ≤ 0xDBFF

/-- A trailing (low) surrogate code unit. -/
def isTrailSurrogate (c : Nat) : Bool := 0xDC00 ≤ c && c ≤ 0xDFFF

/-- Well-formed UTF-16: every surrogate code unit occurs inside a
lead-then-trail pair — exactly the strings free of unpaired surrogates.
Surrogate pairs themselves (non-BMP text such as emoji) are allowed. -/
def wellFormedUtf16 : JStr → Bool
  | [] => true
  | c :: rest =>
    if isTrailSurrogate c then false
    else if isLeadSurrogate c then
      match rest with
      | [] => false
      | d :: rest2 => isTrailSurrogate d && wellFormedUtf16 rest2
    else wellFormedUtf16 rest

/-- `encodeURIComponent`, per the ECMAScript `Encode` abstract operation
over the string's UTF-16 code units.  `none` models the `URIError` thrown
on an unpaired surrogate; otherwise the encoded ASCII string is returned. -/
def encodeURIComponent : JStr → Option JStr
  | [] => some []
  | c :: rest =>
    if uriUnescaped c then
      (encodeURIComponent rest).map (fun t => c :: t)
    else if isTrailSurrogate c then
      none
    else if isLeadSurrogate c then
      match rest with
      | [] => none
      | d :: rest2 =>
        if isTrailSurrogate d then
          (encodeURIComponent rest2).map (fun t =>
            pctCodePoint (0x10000 + (c - 0xD800) * 0x400 + (d - 0xDC00)) ++ t)
        else none
    else
      (encodeURIComponent rest).map (fun t => pctCodePoint c ++ t)

/-! ## `api/index.js`: image handler and router -/

/-- `handleImageGeneration(prompt, res)` from `api/index.js`.  A falsy
prompt gets 400.  The primary path builds the Pollinations URL from
`encodeURIComponent(prompt)` and fixed query parameters and responds 200
without any fetch.  If URL construction throws (`encodeURIComponent` on an
unpaired surrogate), the catch branch POSTs the prompt to the kastg
stable-diffusion endpoint: a 2xx parsed body yields a 200 with
`data.url || data.image`, anything else the 500
`{error:'Image generation failed', message}` (Node's `URIError` message is
`"URI malformed"`). -/
def handleImageGeneration (w : World) (prompt : JStr) (now : String) :
    List Call × HttpResponse :=
  if prompt.isEmpty then
    ([], ⟨400, .obj [("error", JS "Prompt required for image generation")]⟩)
  else
    match encodeURIComponent prompt with
    | some enc =>
      let url : JStr := S imageUrl0 ++ enc ++ S "?width=1024&height=1024&nologo=true&enhance=true"
      ([], ⟨200, .obj [("success", .bool true), ("model", JS "pollinations"),
        ("imageUrl", .str url), ("directUrl", .str url),
        ("prompt", .str prompt), ("timestamp", JS now)]⟩)
    | none =>
      let call : Call := ⟨imageUrl1, .obj [("prompt", .str prompt)]⟩
      onOk2xx (w imageUrl1)
        (fun data => ([call], ⟨200, .obj [("success", .bool true),
          ("model", JS "stable-diffusion"),
          ("imageUrl", jsOr (jsGet data "url") (jsGet data "image")),
          ("prompt", .str prompt), ("timestamp", JS now)]⟩))
        ([call], ⟨500, .obj [("error", JS "Image generation failed"),
          ("message", JS "URI malformed")]⟩)

/-- An inbound request after platform parsing: `prompt`, `model` and
`action` are absent (`none`) or strings; `history` is the parsed array;
`imageUrl` defaults to `null` via the destructuring. -/
structure JSRequest where
  method : String
  prompt : Option JStr
  model : Option String
  action : Option String
  history : List JSVal
  imageUrl : JSVal

/-- JavaScript `!prompt` for the destructured parameter: true when the
property is absent or the empty string. -/
def promptFalsy : Option JStr → Bool
  | none => true
  | some s => s.isEmpty

/-- The prompt as the JavaScript value handed to the chat strategies:
`undefined` when absent. -/
def promptVal : Option JStr → JSVal
  | none => .undefined
  | some s => .str s

/-- The `module.exports` handler of `api/index.js`: CORS pre-flight, then
parameter defaults (`model='chatgpt'`, `action='chat'`), the
missing-prompt validation (HTTP 400 with a `usage` hint), the static
`action='test'` payload, and dispatch to the image or chat handler. -/
def indexHandler (w : World) (envKey : Option String) (req : JSRequest)
    (now : String) : List Call × HttpResponse :=
  if req.method = "OPTIONS" then ([], ⟨200, .undefined⟩)
  else
    let model := req.model.getD "chatgpt"
    let action := req.action.getD "chat"
    if promptFalsy req.prompt ∧ action ≠ "test" then
      ([], ⟨400, .obj [("error", JS "Missing prompt"),
        ("usage", .obj [
          ("chat", JS "POST / with \x7bprompt, model: chatgpt|claude|perplexity|gemini\x7d"),
          ("image", JS "POST / with \x7baction: image, prompt: your description\x7d")])]⟩)
    else if action = "test" then
      ([], ⟨200, .obj [("status", JS "online"),
        ("models", .arr [JS "chatgpt", JS "claude", JS "perplexity", JS "gemini"]),
        ("features", .arr [JS "chat", JS "image"]),
        ("timestamp", JS now)]⟩)
    else if action = "image" then
      handleImageGeneration w (req.prompt.getD []) now
    else
      handleChatRequest w envKey (promptVal req.prompt) model req.history req.imageUrl now

/-! ## The second router variant (the guruapi deployment) -/

namespace P0

/-- The primary API table `APIS` of the variant router. -/
def APIS : List (String × String) :=
  [("gpt4", "https://api.guruapi.tech/ai/gpt4"),
   ("claude", "https://api.guruapi.tech/ai/claude"),
   ("gemini", "https://api.guruapi.tech/ai/gemini"),
   ("llama", "https://api.guruapi.tech/ai/llama"),
   ("imageGen", "https://api.guruapi.tech/ai/image")]

def gpt4Url : String := "https://api.guruapi.tech/ai/gpt4"
def fallbackChatUrl0 : String := "https://widipe.com/openai"
def fallbackChatUrl1 : String := "https://api.freeaiapi.xyz/v1/chat/completions"
def pollinationsUrl : String := "https://image.pollinations.ai/prompt/"
def dalleUrl : String := "https://api.freeaiapi.xyz/v1/images/generations"

/-- `APIS[model] || APIS.gpt4`: table lookup with the gpt4 URL as the
fallback for unknown model names. -/
def lookupApi (model : String) : String :=
  match APIS.find? (fun p => p.1 == model) with
  | some p => p.2
  | none => gpt4Url

/-- The variant's primary extraction
`data.response || data.answer || data.result || null`. -/
def normalizePrimary (data : JSVal) : JSVal :=
  jsOr (jsGet data "response") (jsOr (jsGet data "answer") (jsOr (jsGet data "result") .null))

/-- The call `callChatAPI` makes: the model's URL with the
`{query: prompt, history}` payload. -/
def chatCall (model : String) (prompt : JSVal) (history : List JSVal) : Call :=
  ⟨lookupApi model, .obj [("query", prompt), ("history", .arr history)]⟩

/-- `callChatAPI(prompt, model, history)` of the variant: POST
`{query: prompt, history}` to the model's URL; any network error, non-2xx
status (the code throws and catches it) or parse failure yields `null`,
a 2xx parsed body yields `normalizePrimary`. -/
def callChatAPI (w : World) (prompt : JSVal) (model : String)
    (history : List JSVal) : Call × JSVal :=
  onOk2xx (w (lookupApi model))
    (fun data => (chatCall model prompt history, normalizePrimary data))
    (chatCall model prompt history, .null)

/-- The call `callFallbackChat` makes: the OpenAI-style
`{model:'gpt-4', messages, stream:false}` payload, the history spread
in full followed by the user prompt. -/
def fbCall (apiUrl : String) (prompt : JSVal) (history : List JSVal) : Call :=
  ⟨apiUrl, .obj [("model", JS "gpt-4"),
    ("messages", .arr (history ++ [.obj [("role", JS "user"), ("content", prompt)]])),
    ("stream", .bool false)]⟩

/-- `callFallbackChat(prompt, apiUrl, history)` of the variant: a 2xx
parsed body yields `data.choices?.[0]?.message?.content || null`, any
failure yields `null`. -/
def callFallbackChat (w : World) (prompt : JSVal) (apiUrl : String)
    (history : List JSVal) : Call × JSVal :=
  onOk2xx (w apiUrl)
    (fun data => (fbCall apiUrl prompt history,
      jsOr (jsGet (jsGet (jsIdx (jsGet data "choices") 0) "message") "content") .null))
    (fbCall apiUrl prompt history, .null)

/-- The 200 success envelope of the variant's `handleChat`. -/
def successEnvelope (model : String) (r : JSVal) (now : String) : HttpResponse :=
  ⟨200, .obj [("success", .bool true), ("model", JS model),
              ("response", r), ("timestamp", JS now)]⟩

/-- `handleChat(prompt, model, history, res)` of the variant: the primary
API, then the two fallback URLs in order, stopping at the first truthy
extraction; exhaustion reaches `throw new Error('All APIs failed')`,
caught to a 500 `{error:'Chat generation failed', message}` body
(without a `model` field). -/
def handleChat (w : World) (prompt : JSVal) (model : String)
    (history : List JSVal) (now : String) : List Call × HttpResponse :=
  let selectedModel := jsToLower model
  let p0 := callChatAPI w prompt selectedModel history
  if truthy p0.2 then ([p0.1], successEnvelope selectedModel p0.2 now)
  else
    let p1 := callFallbackChat w prompt fallbackChatUrl0 history
    if truthy p1.2 then ([p0.1, p1.1], successEnvelope "fallback" p1.2 now)
    else
      let p2 := callFallbackChat w prompt fallbackChatUrl1 history
      if truthy p2.2 then ([p0.1, p1.1, p2.1], successEnvelope "fallback" p2.2 now)
      else
        ([p0.1, p1.1, p2.1], ⟨500, .obj [("error", JS "Chat generation failed"),
                                         ("message", JS "All APIs failed")]⟩)

/-- `handleImageGen(prompt, res)` of the variant.  Falsy prompt → 400
(without a `usage` field).  The primary path responds 200 with the
Pollinations URL and no fetch.  The catch branch (unpaired surrogate in
`encodeURIComponent`) POSTs to the freeaiapi endpoint and — with no
`response.ok` check — parses any response: a parsed body yields 200 with
`data.data?.[0]?.url || null`, a fetch/parse throw yields the 500. -/
def handleImageGen (w : World) (prompt : JStr) (now : String) :
    List Call × HttpResponse :=
  if prompt.isEmpty then
    ([], ⟨400, .obj [("error", JS "Prompt required for image generation")]⟩)
  else
    match encodeURIComponent prompt with
    | some enc =>
      let url : JStr := S pollinationsUrl ++ enc ++ S "?width=1024&height=1024&nologo=true"
      ([], ⟨200, .obj [("success", .bool true), ("model", JS "pollinations-ai"),
        ("imageUrl", .str url), ("prompt", .str prompt), ("timestamp", JS now)]⟩)
    | none =>
      let call : Call := ⟨dalleUrl, .obj [("prompt", .str prompt), ("n", .num 1),
        ("size", JS "1024x1024")]⟩
      onParsed (w dalleUrl)
        (fun data => ([call], ⟨200, .obj [("success", .bool true), ("model", JS "dalle-free"),
          ("imageUrl", jsOr (jsGet (jsIdx (jsGet data "data") 0) "url") .null),
          ("prompt", .str prompt), ("timestamp", JS now)]⟩))
        (fun msg => ([call], ⟨500, .obj [("error", JS "Image generation failed"),
          ("message", JS msg)]⟩))

/-- The `module.exports` handler of the variant router: CORS pre-flight,
defaults (`model='gpt4'`, `action='chat'`), a missing-prompt validation
that fires only when `action === 'chat'`, then dispatch; there is no
`test` action in this variant. -/
def handler (w : World) (req : JSRequest) (now : String) :
    List Call × HttpResponse :=
  if req.method = "OPTIONS" then ([], ⟨200, .undefined⟩)
  else
    let model := req.model.getD "gpt4"
    let action := req.action.getD "chat"
    if promptFalsy req.prompt ∧ action = "chat" then
      ([], ⟨400, .obj [("error", JS "Prompt required"),
        ("usage", JS "GET /?prompt=your_question&model=gpt4|claude|gemini|llama")]⟩)
    else if action = "image" then
      handleImageGen w (req.prompt.getD []) now
    else
      handleChat w (promptVal req.prompt) model req.history now

end P0

/-! ## `api/claude.js` -/

def cocosUrl : String := "https://api.cocos.si/chat/completions"

/-- The standalone `api/claude.js` handler: `req.query.prompt || "Hello"`,
one POST to the cocos endpoint, `response.json()` with no `response.ok`
check, then always a 200 whose `response` field is
`data.choices?.[0]?.message?.content || "No response."`; the catch (fetch
rejection or JSON parse rejection) yields a 500
`{success:false, error: err.message}`. -/
def claudeHandler (w : World) (queryPrompt : Option JStr) :
    List Call × HttpResponse :=
  let prompt : JStr :=
    match queryPrompt with
    | none => S "Hello"
    | some s => if s.isEmpty then S "Hello" else s
  let call : Call := ⟨cocosUrl, .obj [("model", JS "claude-3-5-sonnet"),
    ("messages", .arr [.obj [("role", JS "user"), ("content", .str prompt)]])]⟩
  onParsed (w cocosUrl)
    (fun data => ([call], ⟨200, .obj [("success", .bool true),
      ("model", JS "claude-3.5-sonnet"),
      ("response", jsOr (jsGet (jsGet (jsIdx (jsGet data "choices") 0) "message") "content")
        (JS "No response."))]⟩))
    (fun msg => ([call], ⟨500, .obj [("success", .bool false), ("error", JS msg)]⟩))

/-! ## Concrete worlds and spec-side definitions used by the claims -/

/-- World for the counterexamples to C1 and C2: the first chatgpt endpoint
answers 200 with a JSON object carrying none of the expected fields, while
the second endpoint holds a valid payload. -/
def wEmptyBody : World := fun u =>
  if u = chatgptUrl0 then .resp true (.ok (.obj []))
  else .resp true (.ok (.obj [("response", JS "answer from second endpoint")]))

/-- World witnessing the amended C1: the first chatgpt endpoint and all
fallbacks are unreachable; the variant's primary answers 200 with an empty
object. -/
def wC1Witness : World := fun u =>
  if u = P0.gpt4Url then .resp true (.ok (.obj [])) else .netError "socket hang up"

/-- World witnessing the amended C2: first chatgpt endpoint unreachable,
second one valid. -/
def wC2Witness : World := fun u =>
  if u = chatgptUrl1 then .resp true (.ok (.obj [("response", JS "second answers")]))
  else .netError "socket hang up"

/-- World in which every upstream is unreachable. -/
def wAllNet : World := fun _ => .netError "ECONNREFUSED"

/-- World in which every upstream answers a valid chat payload. -/
def wChatReply : World := fun _ => .resp true (.ok (.obj [("response", JS "a chat reply")]))

/-- Nullish (absent-or-null) test, as the specification's
"non-null/non-undefined" reads. -/
def isNullish : JSVal → Bool
  | .undefined => true
  | .null => true
  | _ => false

/-- Modelled from the spec's words, for comparison with the code: "the
first non-null/non-undefined value found by checking an ordered list of
field-path candidates", "returns null if none present". -/
def specNormalize : List JSVal → JSVal
  | [] => .null
  | c :: rest => if isNullish c then specNormalize rest else c

/-- The first truthy value in an ordered candidate list, bottoming out at
the value the JavaScript `||` chain ends with when no candidate is
truthy. -/
def firstTruthyOr : List JSVal → JSVal → JSVal
  | [], last => last
  | c :: rest, last => if truthy c then c else firstTruthyOr rest last

/-- World in which the stable-diffusion fallback is also unreachable. -/
def wC8 : World := fun _ => .netError "fetch failed"

/-- World answering a non-2xx response with an empty parsed body. -/
def wC9 : World := fun _ => .resp false (.ok (.obj []))

/-- World for the C10 counterexample. -/
def wC10 : World := fun _ => .netError "request failed"

/-! ## Helper lemmas -/

theorem onOk2xx_failed {α : Type} (o : FetchOutcome) (f : JSVal → α) (d : α)
    (ho : attemptFailed o = true) : onOk2xx o f d = d := by
  rcases o with m | ⟨ok, body⟩
  · rfl
  · rcases ok <;> rcases body with m | data <;>
      first
      | rfl
      | exact absurd ho (by simp [attemptFailed])

theorem onOk2xx_ok {α : Type} (f : JSVal → α) (d : α) (data : JSVal) :
    onOk2xx (.resp true (.ok data)) f d = f data := rfl

/-- Every fetch outcome is either a 2xx response with a parsed body or a
failed attempt in the sense of `attemptFailed`. -/
theorem fetchOutcome_shape (o : FetchOutcome) :
    (∃ d, o = .resp true (.ok d)) ∨ attemptFailed o = true := by
  rcases o with m | ⟨ok, body⟩
  · exact Or.inr rfl
  · rcases ok <;> rcases body with m | d
    · exact Or.inr rfl
    · exact Or.inr rfl
    · exact Or.inr rfl
    · exact Or.inl ⟨d, rfl⟩

/-- The trace of `tryChatGPT`: either only the first registry endpoint was
called, or both were, in registry order. -/
theorem tryChatGPT_trace (w : World) (p : JSVal) (h : List JSVal) :
    (tryChatGPT w p h).1 = [chatgptCall0 p h] ∨
    (tryChatGPT w p h).1 = [chatgptCall0 p h, chatgptCall1 p h] := by
  unfold tryChatGPT
  rcases fetchOutcome_shape (w chatgptUrl0) with ⟨d0, h0⟩ | h0
  · rw [h0]; exact Or.inl rfl
  · rw [onOk2xx_failed _ _ _ h0]
    rcases fetchOutcome_shape (w chatgptUrl1) with ⟨d1, h1⟩ | h1
    · rw [h1]; exact Or.inr rfl
    · rw [onOk2xx_failed _ _ _ h1]; exact Or.inr rfl

/-- Every call `tryChatGPT` makes goes to one of its two registry URLs. -/
theorem tryChatGPT_calls_urls (w : World) (p : JSVal) (h : List JSVal) :
    ∀ c ∈ (tryChatGPT w p h).1, c.url = chatgptUrl0 ∨ c.url = chatgptUrl1 := by
  intro c hc
  rcases tryChatGPT_trace w p h with ht | ht <;> rw [ht] at hc <;>
    simp only [List.mem_cons, List.not_mem_nil, or_false] at hc
  · subst hc; exact Or.inl rfl
  · rcases hc with hc | hc <;> subst hc
    · exact Or.inl rfl
    · exact Or.inr rfl

/-- With every upstream unreachable, `tryChatGPT` tries both endpoints and
returns `null`. -/
theorem tryChatGPT_allNet (w : World) (p : JSVal) (h : List JSVal) (em : String)
    (hw : ∀ u, w u = .netError em) :
    tryChatGPT w p h = ([chatgptCall0 p h, chatgptCall1 p h], .null) := by
  unfold tryChatGPT
  simp only [hw]
  rfl

/-- With every upstream unreachable, `tryGemini` yields a falsy result. -/
theorem tryGemini_allNet (w : World) (gk : Option String) (p : JSVal)
    (h : List JSVal) (iu : JSVal) (em : String) (hw : ∀ u, w u = .netError em) :
    (tryGemini w gk p h iu).2 = .null := by
  unfold tryGemini
  by_cases hk : resolveGeminiKey gk = geminiPlaceholder
  · rw [if_pos hk, tryChatGPT_allNet w p h em hw]
  · rw [if_neg hk, hw, tryChatGPT_allNet w p h em hw]
    rfl

/-- With every upstream unreachable, every chat strategy yields a falsy
result. -/
theorem chatStrategy_allNet (w : World) (gk : Option String) (p : JSVal)
    (m : String) (h : List JSVal) (iu : JSVal) (em : String)
    (hw : ∀ u, w u = .netError em) :
    (chatStrategy w gk p m h iu).2 = .null := by
  unfold chatStrategy
  split <;>
    first
    | rw [tryChatGPT_allNet w p h em hw]
    | (unfold tryClaude; simp only [hw]; rfl)
    | (unfold tryPerplexity; simp only [hw]; rfl)
    | exact tryGemini_allNet w gk p h iu em hw

/-- With every upstream unreachable, the variant's `handleChat` tries the
primary URL and both fallbacks and answers the 500 body — which carries no
`model` field. -/
theorem P0_handleChat_allNet (w : World) (p : JSVal) (model : String)
    (h : List JSVal) (now : String) (em : String)
    (hw : ∀ u, w u = .netError em) :
    (P0.handleChat w p model h now).2
      = ⟨500, .obj [("error", JS "Chat generation failed"),
                    ("message", JS "All APIs failed")]⟩ := by
  unfold P0.handleChat P0.callChatAPI P0.callFallbackChat
  simp only [hw]
  rfl

/-- Reading a field of the 200 chat envelope of `api/index.js`. -/
theorem jsGet_chatEnvelope_response (m : String) (r : JSVal) (now : String) :
    jsGet (JSVal.obj [("success", .bool true), ("model", JS m),
      ("response", r), ("timestamp", JS now)]) "response" = r := rfl

/-- On a non-empty prompt whose encoding does not throw,
`handleImageGeneration` answers on the primary path: no fetch, HTTP 200,
and the Pollinations URL assembled around the encoded prompt. -/
theorem handleImageGeneration_primary (w : World) (prompt : JStr) (now : String)
    (enc : JStr) (hp : prompt ≠ []) (he : encodeURIComponent prompt = some enc) :
    handleImageGeneration w prompt now =
      ([], ⟨200, .obj [("success", .bool true), ("model", JS "pollinations"),
        ("imageUrl", .str (S imageUrl0 ++ enc ++ S "?width=1024&height=1024&nologo=true&enhance=true")),
        ("directUrl", .str (S imageUrl0 ++ enc ++ S "?width=1024&height=1024&nologo=true&enhance=true")),
        ("prompt", .str prompt), ("timestamp", JS now)]⟩) := by
  obtain ⟨c, cs, rfl⟩ : ∃ c cs, prompt = c :: cs := by
    cases prompt with
    | nil => exact absurd rfl hp
    | cons c cs => exact ⟨c, cs, rfl⟩
  unfold handleImageGeneration
  rw [he]
  rfl

/-- The variant's `handleImageGen` on the same primary path. -/
theorem P0_handleImageGen_primary (w : World) (prompt : JStr) (now : String)
    (enc : JStr) (hp : prompt ≠ []) (he : encodeURIComponent prompt = some enc) :
    P0.handleImageGen w prompt now =
      ([], ⟨200, .obj [("success", .bool true), ("model", JS "pollinations-ai"),
        ("imageUrl", .str (S P0.pollinationsUrl ++ enc ++ S "?width=1024&height=1024&nologo=true")),
        ("prompt", .str prompt), ("timestamp", JS now)]⟩) := by
  obtain ⟨c, cs, rfl⟩ : ∃ c cs, prompt = c :: cs := by
    cases prompt with
    | nil => exact absurd rfl hp
    | cons c cs => exact ⟨c, cs, rfl⟩
  unfold P0.handleImageGen
  rw [he]
  rfl

/-- A code unit `encodeURIComponent` leaves unescaped is ASCII, so never a
surrogate. -/
theorem uriUnescaped_not_surrogate (c : Nat) (h : uriUnescaped c = true) :
    isLeadSurrogate c = false ∧ isTrailSurrogate c = false := by
  simp only [uriUnescaped, Bool.or_eq_true, Bool.and_eq_true, decide_eq_true_eq] at h
  simp only [isLeadSurrogate, isTrailSurrogate, Bool.and_eq_false_iff,
    decide_eq_false_iff_not, not_le]
  omega

/-- Auxiliary, by fuel on the length: `encodeURIComponent` cannot throw on
a well-formed UTF-16 string (surrogates only in lead-trail pairs). -/
theorem encodeURIComponent_total_aux : ∀ (n : Nat) (s : JStr), s.length ≤ n →
    wellFormedUtf16 s = true → ∃ enc, encodeURIComponent s = some enc := by
  intro n
  induction n with
  | zero =>
    intro s hl hwf
    have hnil : s = [] := List.length_eq_zero.mp (Nat.le_zero.mp hl)
    subst hnil
    exact ⟨[], rfl⟩
  | succ n ih =>
    intro s hl hwf
    rcases s with _ | ⟨c, rest⟩
    · exact ⟨[], rfl⟩
    · have hl1 : rest.length ≤ n := by
        simp only [List.length_cons] at hl
        omega
      unfold wellFormedUtf16 at hwf
      by_cases hu : uriUnescaped c = true
      · obtain ⟨hld, htr⟩ := uriUnescaped_not_surrogate c hu
        rw [if_neg (by simp [htr]), if_neg (by simp [hld])] at hwf
        obtain ⟨t, ht⟩ := ih rest hl1 hwf
        refine ⟨c :: t, ?_⟩
        unfold encodeURIComponent
        rw [if_pos hu, ht]
        rfl
      · by_cases htr : isTrailSurrogate c = true
        · rw [if_pos htr] at hwf
          exact absurd hwf (by simp)
        · have htr' : isTrailSurrogate c = false := by
            simpa using htr
          by_cases hld : isLeadSurrogate c = true
          · rw [if_neg (by simp [htr']), if_pos hld] at hwf
            rcases rest with _ | ⟨d, rest2⟩
            · exact absurd hwf (by simp)
            · simp only [Bool.and_eq_true] at hwf
              obtain ⟨hd, hwf2⟩ := hwf
              have hl2 : rest2.length ≤ n := by
                simp only [List.length_cons] at hl
                omega
              obtain ⟨t, ht⟩ := ih rest2 hl2 hwf2
              refine ⟨pctCodePoint (0x10000 + (c - 0xD800) * 0x400 + (d - 0xDC00)) ++ t, ?_⟩
              unfold encodeURIComponent
              rw [if_neg (by simp [hu]), if_neg (by simp [htr']), if_pos hld]
              dsimp only
              rw [if_pos hd, ht]
              rfl
          · have hld' : isLeadSurrogate c = false := by
              simpa using hld
            rw [if_neg (by simp [htr']), if_neg (by simp [hld'])] at hwf
            obtain ⟨t, ht⟩ := ih rest hl1 hwf
            refine ⟨pctCodePoint c ++ t, ?_⟩
            unfold encodeURIComponent
            rw [if_neg (by simp [hu]), if_neg (by simp [htr']),
              if_neg (by simp [hld']), ht]
            rfl

/-- `encodeURIComponent` cannot throw on a string free of unpaired
surrogates (surrogate pairs allowed): the primary image path has no
construction error on any well-formed UTF-16 prompt. -/
theorem encodeURIComponent_total (s : JStr) (hs : wellFormedUtf16 s = true) :
    ∃ enc, encodeURIComponent s = some enc :=
  encodeURIComponent_total_aux s.length s (Nat.le_refl _) hs

/-- The first component of `callFallbackChat` does not depend on the
upstream outcome: the call is made regardless. -/
theorem callFallbackChat_fst (w : World) (p : JSVal) (apiUrl : String)
    (hist : List JSVal) :
    (P0.callFallbackChat w p apiUrl hist).1 = P0.fbCall apiUrl p hist := by
  unfold P0.callFallbackChat
  rcases fetchOutcome_shape (w apiUrl) with ⟨d, h⟩ | h
  · rw [h]; rfl
  · rw [onOk2xx_failed _ _ _ h]

/-- Projecting the first component through a conditional with equal first
components. -/
theorem ite_pair_fst {α β : Type} (c : Prop) [Decidable c] (x : α) (a b : β) :
    (if c then (x, a) else (x, b)).1 = x := by
  split <;> rfl

/-! ## Claim C1 -/

/-- C1 counterexample: a 2xx upstream response whose parsed body contains
none of the expected fields does not cause the next candidate to be
attempted.  `tryChatGPT` returns the missing field (`undefined`) at once;
its trace shows only the first registry URL even though the second
endpoint held a valid payload. -/
theorem tryChatGPT_2xx_empty_body_stops_chain :
    ((tryChatGPT wEmptyBody (JS "hi") []).1.map Call.url) = [chatgptUrl0] ∧
    (tryChatGPT wEmptyBody (JS "hi") []).2 = .undefined ∧
    wEmptyBody chatgptUrl1
      = .resp true (.ok (.obj [("response", JS "answer from second endpoint")])) :=
  ⟨rfl, rfl, rfl⟩

/-- C1 amended: an attempt ending in a network error, a non-2xx status, or
a JSON parse failure is non-fatal — `tryChatGPT` proceeds to its second
registry endpoint — and in the variant router a 2xx primary body that
normalizes to no usable field also leads on to the fallback list; only a
2xx body without usable fields inside `tryChatGPT`'s own chain ends it
early (the counterexample). -/
theorem nonfatal_failures_attempt_next_candidate (w : World) (p : JSVal)
    (hist : List JSVal) (model : String) (now : String) (data : JSVal)
    (hf : attemptFailed (w chatgptUrl0) = true)
    (hprim : w (P0.lookupApi (jsToLower model)) = .resp true (.ok data))
    (hmiss : truthy (P0.normalizePrimary data) = false) :
    ((tryChatGPT w p hist).1.map Call.url) = [chatgptUrl0, chatgptUrl1] ∧
    (((P0.handleChat w p model hist now).1.map Call.url
        = [P0.lookupApi (jsToLower model), P0.fallbackChatUrl0]) ∨
     ((P0.handleChat w p model hist now).1.map Call.url
        = [P0.lookupApi (jsToLower model), P0.fallbackChatUrl0, P0.fallbackChatUrl1])) := by
  have hc : P0.callChatAPI w p (jsToLower model) hist
      = (P0.chatCall (jsToLower model) p hist, P0.normalizePrimary data) := by
    unfold P0.callChatAPI
    rw [hprim]
    rfl
  constructor
  · unfold tryChatGPT
    rw [onOk2xx_failed _ _ _ hf]
    rcases fetchOutcome_shape (w chatgptUrl1) with ⟨d1, h1⟩ | h1
    · rw [h1]; rfl
    · rw [onOk2xx_failed _ _ _ h1]; rfl
  · rcases fetchOutcome_shape (w P0.fallbackChatUrl0) with ⟨d1, h1⟩ | h1
    · have hc1 : P0.callFallbackChat w p P0.fallbackChatUrl0 hist
          = (P0.fbCall P0.fallbackChatUrl0 p hist,
             jsOr (jsGet (jsGet (jsIdx (jsGet d1 "choices") 0) "message") "content") .null) := by
        unfold P0.callFallbackChat
        rw [h1]
        rfl
      by_cases hv1 : truthy (jsOr (jsGet (jsGet (jsIdx (jsGet d1 "choices") 0) "message") "content") .null) = true
      · left
        simp only [P0.handleChat, hc, hc1, hmiss, hv1]
        simp [P0.chatCall, P0.fbCall]
      · right
        simp only [P0.handleChat, hc, hc1, hmiss]
        simp only [Bool.not_eq_true] at hv1
        simp only [hv1]
        simp [P0.chatCall, P0.fbCall, callFallbackChat_fst, ite_pair_fst]
    · have hc1 : P0.callFallbackChat w p P0.fallbackChatUrl0 hist
          = (P0.fbCall P0.fallbackChatUrl0 p hist, .null) := by
        unfold P0.callFallbackChat
        rw [onOk2xx_failed _ _ _ h1]
      right
      simp only [P0.handleChat, hc, hc1, hmiss]
      simp [truthy, P0.chatCall, P0.fbCall, callFallbackChat_fst, ite_pair_fst]

/-- Witness for the amended C1 at a concrete request and world. -/
theorem nonfatal_failures_attempt_next_candidate_witness :
    ((tryChatGPT wC1Witness (JS "hi") []).1.map Call.url) = [chatgptUrl0, chatgptUrl1] ∧
    (((P0.handleChat wC1Witness (JS "hi") "gpt4" [] "ts").1.map Call.url
        = [P0.lookupApi (jsToLower "gpt4"), P0.fallbackChatUrl0]) ∨
     ((P0.handleChat wC1Witness (JS "hi") "gpt4" [] "ts").1.map Call.url
        = [P0.lookupApi (jsToLower "gpt4"), P0.fallbackChatUrl0, P0.fallbackChatUrl1])) :=
  nonfatal_failures_attempt_next_candidate wC1Witness (JS "hi") [] "gpt4" "ts"
    (.obj []) rfl rfl rfl

/-! ## Claim C2 -/

/-- C2 counterexample: with the first chatgpt upstream "failing" by an
empty (field-less) 2xx body and the second upstream holding a valid
payload, the handler answers 500 — not 200 with the value from the second
upstream — and the second upstream is never invoked. -/
theorem failover_skipped_on_empty_body :
    (handleChatRequest wEmptyBody none (JS "hi") "chatgpt" [] .null "ts").2.status = 500 ∧
    ((handleChatRequest wEmptyBody none (JS "hi") "chatgpt" [] .null "ts").1.map Call.url)
      = [chatgptUrl0] ∧
    wEmptyBody chatgptUrl1
      = .resp true (.ok (.obj [("response", JS "answer from second endpoint")])) :=
  ⟨rfl, rfl, rfl⟩

/-- C2 amended: when the first chatgpt upstream fails by a network error,
a non-2xx status, or a JSON parse failure and the second holds a payload
whose extraction is truthy, the handler returns HTTP 200 whose `response`
field is the value extracted from the second upstream's body, and no
upstream beyond those two is invoked; a first upstream that "fails" by a
2xx body with no usable field instead short-circuits to the 500 of the
counterexample. -/
theorem failover_returns_next_upstream_value (w : World) (gk : Option String)
    (p : JSVal) (hist : List JSVal) (iu : JSVal) (now : String) (data : JSVal)
    (h0 : attemptFailed (w chatgptUrl0) = true)
    (h1 : w chatgptUrl1 = .resp true (.ok data))
    (hv : truthy (jsOr (jsGet data "response") (jsGet data "message")) = true) :
    ((handleChatRequest w gk p "chatgpt" hist iu now).1.map Call.url)
      = [chatgptUrl0, chatgptUrl1] ∧
    (handleChatRequest w gk p "chatgpt" hist iu now).2.status = 200 ∧
    jsGet (handleChatRequest w gk p "chatgpt" hist iu now).2.body "response"
      = jsOr (jsGet data "response") (jsGet data "message") := by
  have htry : tryChatGPT w p hist
      = ([chatgptCall0 p hist, chatgptCall1 p hist],
         jsOr (jsGet data "response") (jsGet data "message")) := by
    unfold tryChatGPT
    rw [onOk2xx_failed _ _ _ h0, h1]
    rfl
  have hmain : handleChatRequest w gk p "chatgpt" hist iu now
      = ((tryChatGPT w p hist).1, chatEnvelope "chatgpt" (tryChatGPT w p hist).2 now) := rfl
  rw [hmain, htry]
  refine ⟨rfl, ?_, ?_⟩
  · simp [chatEnvelope, hv]
  · simp [chatEnvelope, hv, jsGet_chatEnvelope_response]

/-- Witness for the amended C2 at a concrete request and world. -/
theorem failover_returns_next_upstream_value_witness :
    ((handleChatRequest wC2Witness none (JS "q") "chatgpt" [] .null "ts").1.map Call.url)
      = [chatgptUrl0, chatgptUrl1] ∧
    (handleChatRequest wC2Witness none (JS "q") "chatgpt" [] .null "ts").2.status = 200 ∧
    jsGet (handleChatRequest wC2Witness none (JS "q") "chatgpt" [] .null "ts").2.body "response"
      = jsOr (jsGet (.obj [("response", JS "second answers")]) "response")
             (jsGet (.obj [("response", JS "second answers")]) "message") :=
  failover_returns_next_upstream_value wC2Witness none (JS "q") [] .null "ts"
    (.obj [("response", JS "second answers")]) rfl rfl rfl

/-! ## Claim C3 -/

/-- C3 counterexample: with every upstream unreachable, the variant
router's chat handler does answer 500 with the aggregate error, but its
body carries no `model` field at all. -/
theorem variant_500_lacks_model_field :
    (P0.handleChat wAllNet (JS "hi") "gpt4" [] "ts").2.status = 500 ∧
    jsGet (P0.handleChat wAllNet (JS "hi") "gpt4" [] "ts").2.body "error"
      = JS "Chat generation failed" ∧
    jsGet (P0.handleChat wAllNet (JS "hi") "gpt4" [] "ts").2.body "model" = .undefined :=
  ⟨rfl, rfl, rfl⟩

/-- C3 amended: when every upstream fails, the chat layer answers (never
throws past itself): `api/index.js` produces HTTP 500 with
`error = "Chat generation failed"` and a `model` field naming the
(lowercased) requested model, while the variant router's 500 body carries
the same `error` but no `model` field. -/
theorem chat_exhaustion_500 (w : World) (gk : Option String) (p : JSVal)
    (model : String) (hist : List JSVal) (iu : JSVal) (now : String) (em : String)
    (hw : ∀ u, w u = .netError em) :
    (handleChatRequest w gk p model hist iu now).2.status = 500 ∧
    jsGet (handleChatRequest w gk p model hist iu now).2.body "error"
      = JS "Chat generation failed" ∧
    jsGet (handleChatRequest w gk p model hist iu now).2.body "model"
      = JS (jsToLower model) ∧
    (P0.handleChat w p model hist now).2.status = 500 ∧
    jsGet (P0.handleChat w p model hist now).2.body "error"
      = JS "Chat generation failed" ∧
    jsGet (P0.handleChat w p model hist now).2.body "model" = .undefined := by
  have hs : (chatStrategy w gk p (jsToLower model) hist iu).2 = .null :=
    chatStrategy_allNet w gk p (jsToLower model) hist iu em hw
  have hmain : (handleChatRequest w gk p model hist iu now).2
      = chatEnvelope (jsToLower model)
          (chatStrategy w gk p (jsToLower model) hist iu).2 now := rfl
  have hp0 := P0_handleChat_allNet w p model hist now em hw
  rw [hmain, hs, hp0]
  exact ⟨rfl, rfl, rfl, rfl, rfl, rfl⟩

/-- Witness for the amended C3 at a concrete request and world. -/
theorem chat_exhaustion_500_witness :
    (handleChatRequest wAllNet none (JS "hi") "ChatGPT" [] .null "ts").2.status = 500 ∧
    jsGet (handleChatRequest wAllNet none (JS "hi") "ChatGPT" [] .null "ts").2.body "error"
      = JS "Chat generation failed" ∧
    jsGet (handleChatRequest wAllNet none (JS "hi") "ChatGPT" [] .null "ts").2.body "model"
      = JS (jsToLower "ChatGPT") ∧
    (P0.handleChat wAllNet (JS "hi") "ChatGPT" [] "ts").2.status = 500 ∧
    jsGet (P0.handleChat wAllNet (JS "hi") "ChatGPT" [] "ts").2.body "error"
      = JS "Chat generation failed" ∧
    jsGet (P0.handleChat wAllNet (JS "hi") "ChatGPT" [] "ts").2.body "model" = .undefined :=
  chat_exhaustion_500 wAllNet none (JS "hi") "ChatGPT" [] .null "ts" "ECONNREFUSED"
    (fun _ => rfl)

/-! ## Claim C4 -/

/-- C4 counterexample: in the variant router, a request with no prompt and
`action = "image"` gets HTTP 400 whose body has no `usage` hint. -/
theorem variant_image_400_lacks_usage :
    (P0.handler wAllNet ⟨"POST", none, none, some "image", [], .null⟩ "ts").2.status = 400 ∧
    jsGet (P0.handler wAllNet ⟨"POST", none, none, some "image", [], .null⟩ "ts").2.body "usage"
      = .undefined ∧
    (P0.handler wAllNet ⟨"POST", none, none, some "image", [], .null⟩ "ts").1 = [] :=
  ⟨rfl, rfl, rfl⟩

/-- C4 amended: in `api/index.js` every request with a falsy prompt and a
non-`test` action gets HTTP 400 with a `usage` hint before any upstream
call; in the variant router this holds only when the action is `"chat"`
(or defaulted) — its image path answers 400 without the hint. -/
theorem missing_prompt_400_usage (w : World) (gk : Option String)
    (req : JSRequest) (now : String)
    (hm : req.method ≠ "OPTIONS")
    (hp : promptFalsy req.prompt = true)
    (ha : req.action.getD "chat" ≠ "test") :
    (indexHandler w gk req now).1 = [] ∧
    (indexHandler w gk req now).2.status = 400 ∧
    jsGet (indexHandler w gk req now).2.body "usage" ≠ .undefined ∧
    (req.action.getD "chat" = "chat" →
      (P0.handler w req now).1 = [] ∧
      (P0.handler w req now).2.status = 400 ∧
      jsGet (P0.handler w req now).2.body "usage" ≠ .undefined) := by
  have hidx : indexHandler w gk req now
      = ([], ⟨400, .obj [("error", JS "Missing prompt"),
          ("usage", .obj [
            ("chat", JS "POST / with \x7bprompt, model: chatgpt|claude|perplexity|gemini\x7d"),
            ("image", JS "POST / with \x7baction: image, prompt: your description\x7d")])]⟩) := by
    simp only [indexHandler]
    rw [if_neg hm, if_pos (show promptFalsy req.prompt = true ∧ req.action.getD "chat" ≠ "test" from ⟨hp, ha⟩)]
  refine ⟨by rw [hidx], by rw [hidx], by rw [hidx]; exact fun h => JSVal.noConfusion h, ?_⟩
  intro hchat
  have hv : P0.handler w req now
      = ([], ⟨400, .obj [("error", JS "Prompt required"),
          ("usage", JS "GET /?prompt=your_question&model=gpt4|claude|gemini|llama")]⟩) := by
    simp only [P0.handler]
    rw [if_neg hm, if_pos (show promptFalsy req.prompt = true ∧ req.action.getD "chat" = "chat" from ⟨hp, hchat⟩)]
  exact ⟨by rw [hv], by rw [hv], by rw [hv]; exact fun h => JSVal.noConfusion h⟩

/-- Witness for the amended C4: a POST with no prompt and the default
action. -/
theorem missing_prompt_400_usage_witness :
    (indexHandler wAllNet none ⟨"POST", none, none, none, [], .null⟩ "ts").1 = [] ∧
    (indexHandler wAllNet none ⟨"POST", none, none, none, [], .null⟩ "ts").2.status = 400 ∧
    jsGet (indexHandler wAllNet none ⟨"POST", none, none, none, [], .null⟩ "ts").2.body "usage"
      ≠ .undefined ∧
    ((⟨"POST", none, none, none, [], .null⟩ : JSRequest).action.getD "chat" = "chat" →
      (P0.handler wAllNet ⟨"POST", none, none, none, [], .null⟩ "ts").1 = [] ∧
      (P0.handler wAllNet ⟨"POST", none, none, none, [], .null⟩ "ts").2.status = 400 ∧
      jsGet (P0.handler wAllNet ⟨"POST", none, none, none, [], .null⟩ "ts").2.body "usage"
        ≠ .undefined) :=
  missing_prompt_400_usage wAllNet none ⟨"POST", none, none, none, [], .null⟩ "ts"
    (by decide) rfl (by decide)

/-! ## Claim C5 -/

/-- C5 counterexample: the variant router has no `test` action: a request
with `action = "test"` is routed to the chat handler, the primary upstream
is called, and the response is the chat envelope, not the static status
payload. -/
theorem variant_test_action_calls_upstream :
    ((P0.handler wChatReply ⟨"POST", some (S "hi"), none, some "test", [], .null⟩ "ts").1.map Call.url)
      = [P0.gpt4Url] ∧
    jsGet (P0.handler wChatReply ⟨"POST", some (S "hi"), none, some "test", [], .null⟩ "ts").2.body "status"
      = .undefined ∧
    jsGet (P0.handler wChatReply ⟨"POST", some (S "hi"), none, some "test", [], .null⟩ "ts").2.body "response"
      = JS "a chat reply" :=
  ⟨rfl, rfl, rfl⟩

/-- C5 amended: in `api/index.js` every request with `action = "test"`
makes no upstream call and gets HTTP 200 with the static status payload;
the variant router lacks the `test` action and treats such requests as
chat. -/
theorem test_action_static_payload (w : World) (gk : Option String)
    (req : JSRequest) (now : String)
    (hm : req.method ≠ "OPTIONS")
    (ha : req.action.getD "chat" = "test") :
    indexHandler w gk req now
      = ([], ⟨200, .obj [("status", JS "online"),
          ("models", .arr [JS "chatgpt", JS "claude", JS "perplexity", JS "gemini"]),
          ("features", .arr [JS "chat", JS "image"]),
          ("timestamp", JS now)]⟩) := by
  simp only [indexHandler]
  rw [if_neg hm, if_neg (fun hcon => hcon.2 ha), if_pos ha]

/-- Witness for the amended C5 at a concrete request. -/
theorem test_action_static_payload_witness :
    indexHandler wChatReply none ⟨"GET", some (S "x"), none, some "test", [], .null⟩ "ts"
      = ([], ⟨200, .obj [("status", JS "online"),
          ("models", .arr [JS "chatgpt", JS "claude", JS "perplexity", JS "gemini"]),
          ("features", .arr [JS "chat", JS "image"]),
          ("timestamp", JS "ts")]⟩) :=
  test_action_static_payload wChatReply none ⟨"GET", some (S "x"), none, some "test", [], .null⟩
    "ts" (by decide) rfl

/-! ## Claim C6 -/

/-- C6 counterexample: on the payload `{response: "", message: "hello"}`
the code's normalizer returns `"hello"`, not the first
non-null/non-undefined candidate `""` that the claim (and `specNormalize`,
transcribed from it) selects. -/
theorem normalizeChat_not_first_nonnull :
    normalizeChat (.obj [("response", .str []), ("message", JS "hello")]) = JS "hello" ∧
    jsGet (.obj [("response", .str []), ("message", JS "hello")]) "response" = .str [] ∧
    isNullish (.str []) = false ∧
    specNormalize [.str [], JS "hello"] = .str [] ∧
    JS "hello" ≠ JSVal.str [] := by
  refine ⟨rfl, rfl, rfl, rfl, fun heq => ?_⟩
  have h2 : S "hello" = [] := JSVal.str.inj heq
  have h3 : S "hello" = [104, 101, 108, 108, 111] := rfl
  rw [h3] at h2
  exact List.noConfusion h2

/-- C6 amended: the normalizers return the first *truthy* candidate
(JavaScript `||` semantics, so a present-but-empty string or `0` is
skipped), bottoming out at the last candidate's own value: for the generic
chat extraction of `api/index.js` the candidates are `response`,
`message`, `result`, and an all-falsy payload yields `result`'s value
(`undefined` when absent); the variant's primary extraction checks
`response`, `answer`, `result` and bottoms out at `null`.  When `response`
is present and truthy it wins deterministically. -/
theorem normalize_first_truthy (d : JSVal) :
    normalizeChat d =
      firstTruthyOr [jsGet d "response", jsGet d "message"] (jsGet d "result") ∧
    P0.normalizePrimary d =
      firstTruthyOr [jsGet d "response", jsGet d "answer", jsGet d "result"] .null ∧
    (truthy (jsGet d "response") = true → normalizeChat d = jsGet d "response") := by
  refine ⟨?_, ?_, ?_⟩
  · simp [normalizeChat, firstTruthyOr, jsOr]
  · simp [P0.normalizePrimary, firstTruthyOr, jsOr]
  · intro ht
    simp [normalizeChat, jsOr, ht]

/-- Witness: the deterministic-order conjunct of `normalize_first_truthy`
at a payload holding both `response` and `message`. -/
theorem normalize_first_truthy_witness :
    normalizeChat (.obj [("response", JS "a"), ("message", JS "b")]) =
      jsGet (.obj [("response", JS "a"), ("message", JS "b")]) "response" :=
  (normalize_first_truthy (.obj [("response", JS "a"), ("message", JS "b")])).2.2 rfl

/-! ## Claim C7 -/

/-- C7: with the gemini key absent or equal to the placeholder sentinel, a
`model = "gemini"` chat request never contacts the gemini upstream — every
call in its trace goes to a chatgpt registry URL — and its result is
exactly the default chat strategy's, formatted in the usual envelope. -/
theorem gemini_missing_key_uses_default_strategy (w : World) (gk : Option String)
    (p : JSVal) (hist : List JSVal) (iu : JSVal) (now : String)
    (hk : gk = none ∨ gk = some geminiPlaceholder) :
    handleChatRequest w gk p "gemini" hist iu now
      = ((tryChatGPT w p hist).1, chatEnvelope "gemini" (tryChatGPT w p hist).2 now) ∧
    ∀ c ∈ (handleChatRequest w gk p "gemini" hist iu now).1,
      c.url = chatgptUrl0 ∨ c.url = chatgptUrl1 := by
  have hkey : resolveGeminiKey gk = geminiPlaceholder := by
    rcases hk with h | h <;> subst h <;> rfl
  have hg : tryGemini w gk p hist iu = tryChatGPT w p hist := by
    unfold tryGemini
    rw [if_pos hkey]
  have hmain : handleChatRequest w gk p "gemini" hist iu now
      = ((tryGemini w gk p hist iu).1, chatEnvelope "gemini" (tryGemini w gk p hist iu).2 now) := rfl
  rw [hmain, hg]
  exact ⟨rfl, tryChatGPT_calls_urls w p hist⟩

/-- Witness for C7 at a concrete request and world. -/
theorem gemini_missing_key_uses_default_strategy_witness :
    handleChatRequest wAllNet none (JS "q") "gemini" [] .null "ts"
      = ((tryChatGPT wAllNet (JS "q") []).1,
         chatEnvelope "gemini" (tryChatGPT wAllNet (JS "q") []).2 "ts") :=
  (gemini_missing_key_uses_default_strategy wAllNet none (JS "q") [] .null "ts" (Or.inl rfl)).1

/-! ## Claim C8 -/

/-- C8 counterexample: the non-empty prompt `"a\uDC00"` (an unpaired
trailing surrogate, a value a JavaScript string can hold) makes
`encodeURIComponent` throw, so the primary path does not respond: the
stable-diffusion upstream IS called and, with it unreachable, the response
is 500 — not the claimed 200-with-imageUrl-and-no-upstream-call. -/
theorem image_trailing_surrogate_500 :
    ([97, 0xDC00] : JStr) ≠ [] ∧
    encodeURIComponent [97, 0xDC00] = none ∧
    (handleImageGeneration wC8 [97, 0xDC00] "ts").2.status = 500 ∧
    ((handleImageGeneration wC8 [97, 0xDC00] "ts").1.map Call.url) = [imageUrl1] :=
  ⟨by decide, rfl, rfl, rfl⟩

/-- C8 amended: for every non-empty prompt on which `encodeURIComponent`
does not throw (equivalently, every well-formed UTF-16 prompt), both image
handlers respond 200 on the primary path with no upstream call, and the
`imageUrl` string is the Pollinations URL given by the percent-encoded
prompt between the base URL and the fixed `width=1024&height=1024` query
parameters — in particular it contains the encoding and the dimensions as
substrings. -/
theorem image_wellformed_prompt_primary (w : World) (prompt : JStr) (now : String)
    (enc : JStr) (hp : prompt ≠ []) (he : encodeURIComponent prompt = some enc) :
    (handleImageGeneration w prompt now).1 = [] ∧
    (handleImageGeneration w prompt now).2.status = 200 ∧
    jsGet (handleImageGeneration w prompt now).2.body "imageUrl"
      = .str (S imageUrl0 ++ enc ++ S "?width=1024&height=1024&nologo=true&enhance=true") ∧
    (∃ a b, S imageUrl0 ++ enc ++ S "?width=1024&height=1024&nologo=true&enhance=true"
        = a ++ enc ++ b) ∧
    (∃ a b, S imageUrl0 ++ enc ++ S "?width=1024&height=1024&nologo=true&enhance=true"
        = a ++ S "width=1024&height=1024" ++ b) ∧
    (P0.handleImageGen w prompt now).1 = [] ∧
    (P0.handleImageGen w prompt now).2.status = 200 ∧
    jsGet (P0.handleImageGen w prompt now).2.body "imageUrl"
      = .str (S P0.pollinationsUrl ++ enc ++ S "?width=1024&height=1024&nologo=true") := by
  have h1 := handleImageGeneration_primary w prompt now enc hp he
  have h2 := P0_handleImageGen_primary w prompt now enc hp he
  rw [h1, h2]
  refine ⟨rfl, rfl, rfl,
    ⟨S imageUrl0, S "?width=1024&height=1024&nologo=true&enhance=true", rfl⟩, ?_,
    rfl, rfl, rfl⟩
  refine ⟨S imageUrl0 ++ enc ++ S "?", S "&nologo=true&enhance=true", ?_⟩
  have hsplit : S "?width=1024&height=1024&nologo=true&enhance=true"
      = S "?" ++ (S "width=1024&height=1024" ++ S "&nologo=true&enhance=true") := rfl
  rw [hsplit]
  simp [List.append_assoc]

/-- Witness for the amended C8 at the prompt `"a red fox"`. -/
theorem image_wellformed_prompt_primary_witness :
    (handleImageGeneration wC8 (S "a red fox") "ts").1 = [] ∧
    (handleImageGeneration wC8 (S "a red fox") "ts").2.status = 200 ∧
    jsGet (handleImageGeneration wC8 (S "a red fox") "ts").2.body "imageUrl"
      = .str (S imageUrl0 ++ S "a%20red%20fox" ++ S "?width=1024&height=1024&nologo=true&enhance=true") :=
  ⟨(image_wellformed_prompt_primary wC8 (S "a red fox") "ts" (S "a%20red%20fox")
      (by decide) rfl).1,
   (image_wellformed_prompt_primary wC8 (S "a red fox") "ts" (S "a%20red%20fox")
      (by decide) rfl).2.1,
   (image_wellformed_prompt_primary wC8 (S "a red fox") "ts" (S "a%20red%20fox")
      (by decide) rfl).2.2.1⟩

/-! ## Claim C9 -/

/-- C9: the standalone `claude.js` handler replaces a missing prompt by
`"Hello"` (never 400), answers 200 with `success:true` whenever fetch and
JSON parse succeed — a non-2xx status included — substituting
`"No response."` when the content field is absent, and answers 500 exactly
when fetch or the JSON parse throws. -/
theorem claudeHandler_spec (w : World) (q : Option JStr) :
    (claudeHandler w q).2.status ≠ 400 ∧
    (q = none → (claudeHandler w q).1
      = [⟨cocosUrl, .obj [("model", JS "claude-3-5-sonnet"),
          ("messages", .arr [.obj [("role", JS "user"), ("content", JS "Hello")]])]⟩]) ∧
    (∀ ok d, w cocosUrl = .resp ok (.ok d) →
      (claudeHandler w q).2.status = 200 ∧
      jsGet (claudeHandler w q).2.body "success" = .bool true ∧
      (jsGet (jsGet (jsIdx (jsGet d "choices") 0) "message") "content" = .undefined →
        jsGet (claudeHandler w q).2.body "response" = JS "No response.")) ∧
    ((claudeHandler w q).2.status = 500 ↔
      (∃ m, w cocosUrl = .netError m) ∨ (∃ ok m, w cocosUrl = .resp ok (.error m))) := by
  have hnet : ∀ m, w cocosUrl = .netError m →
      (claudeHandler w q).2
        = ⟨500, .obj [("success", .bool false), ("error", JS m)]⟩ := by
    intro m hm
    simp only [claudeHandler]
    rw [hm]
    rfl
  have hperr : ∀ ok m, w cocosUrl = .resp ok (.error m) →
      (claudeHandler w q).2
        = ⟨500, .obj [("success", .bool false), ("error", JS m)]⟩ := by
    intro ok m hm
    simp only [claudeHandler]
    rw [hm]
    rfl
  have hok : ∀ ok d, w cocosUrl = .resp ok (.ok d) →
      (claudeHandler w q).2
        = ⟨200, .obj [("success", .bool true), ("model", JS "claude-3.5-sonnet"),
            ("response", jsOr (jsGet (jsGet (jsIdx (jsGet d "choices") 0) "message") "content")
              (JS "No response."))]⟩ := by
    intro ok d hm
    simp only [claudeHandler]
    rw [hm]
    rfl
  refine ⟨?_, ?_, ?_, ?_⟩
  · rcases ho : w cocosUrl with m | ⟨ok, body⟩
    · rw [hnet m ho]; simp
    · rcases body with m | d
      · rw [hperr ok m ho]; simp
      · rw [hok ok d ho]; simp
  · rintro rfl
    rcases ho : w cocosUrl with m | ⟨ok, body⟩
    · simp only [claudeHandler]
      rw [ho]
      rfl
    · rcases body with m | d <;>
      · simp only [claudeHandler]
        rw [ho]
        rfl
  · intro ok d hd
    rw [hok ok d hd]
    refine ⟨rfl, rfl, fun hctn => ?_⟩
    have hresp : jsGet (JSVal.obj [("success", .bool true),
        ("model", JS "claude-3.5-sonnet"),
        ("response", jsOr (jsGet (jsGet (jsIdx (jsGet d "choices") 0) "message") "content")
          (JS "No response."))]) "response"
      = jsOr (jsGet (jsGet (jsIdx (jsGet d "choices") 0) "message") "content")
          (JS "No response.") := rfl
    rw [hresp, hctn]
    rfl
  · constructor
    · intro h5
      rcases ho : w cocosUrl with m | ⟨ok, body⟩
      · exact Or.inl ⟨m, rfl⟩
      · rcases body with m | d
        · exact Or.inr ⟨ok, m, rfl⟩
        · rw [hok ok d ho] at h5
          simp at h5
    · rintro (⟨m, hm⟩ | ⟨ok, m, hm⟩)
      · rw [hnet m hm]
      · rw [hperr ok m hm]

/-- Witness for C9: even on a non-2xx upstream response the handler (with
no prompt supplied) answers 200 and substitutes `"No response."`. -/
theorem claudeHandler_spec_witness :
    (claudeHandler wC9 none).2.status = 200 ∧
    jsGet (claudeHandler wC9 none).2.body "response" = JS "No response." :=
  ⟨((claudeHandler_spec wC9 none).2.2.1 false (.obj []) rfl).1,
   ((claudeHandler_spec wC9 none).2.2.1 false (.obj []) rfl).2.2 rfl⟩

/-! ## Claim C10 -/

/-- C10 counterexample: the primary path CAN throw — on the non-empty
prompt `"\uD800"` (a lone leading surrogate) `encodeURIComponent` raises
`URIError`, the catch branch is reached, the stable-diffusion fallback
POST happens, and (that upstream being unreachable) the image request
answers HTTP 500, not 200. -/
theorem image_lone_lead_surrogate_catch_reached :
    ([0xD800] : JStr) ≠ [] ∧
    encodeURIComponent [0xD800] = none ∧
    ((handleImageGeneration wC10 [0xD800] "ts").1.map Call.url) = [imageUrl1] ∧
    (handleImageGeneration wC10 [0xD800] "ts").2.status = 500 :=
  ⟨by decide, rfl, rfl, rfl⟩

/-- C10 amended: for every non-empty prompt that is well-formed UTF-16 —
free of unpaired surrogates, with surrogate pairs (non-BMP text such as
emoji) allowed — URL construction cannot throw, the catch branch with the
stable-diffusion POST and the 500 is not reached, and the image request
answers HTTP 200 with no upstream call. -/
theorem image_wellformed_utf16_catch_unreachable (w : World) (prompt : JStr)
    (now : String) (hp : prompt ≠ [])
    (hs : wellFormedUtf16 prompt = true) :
    (handleImageGeneration w prompt now).1 = [] ∧
    (handleImageGeneration w prompt now).2.status = 200 := by
  obtain ⟨enc, he⟩ := encodeURIComponent_total prompt hs
  rw [handleImageGeneration_primary w prompt now enc hp he]
  exact ⟨rfl, rfl⟩

/-- Witness for the amended C10 at the prompt `"😀"` — the surrogate pair
`D83D DE00`, a well-formed string the primary path encodes without
throwing. -/
theorem image_wellformed_utf16_catch_unreachable_witness :
    (handleImageGeneration wC10 [0xD83D, 0xDE00] "ts").1 = [] ∧
    (handleImageGeneration wC10 [0xD83D, 0xDE00] "ts").2.status = 200 :=
  image_wellformed_utf16_catch_unreachable wC10 [0xD83D, 0xDE00] "ts"
    (by decide) (by decide)
